import Mathlib

/-!
Verification development for the hydra_router repository.

The Python sources are shallowly embedded: dictionaries become ordered
association lists with unique keys, JSON values become the `Json` inductive,
`time.time()` becomes an explicit `now : Rat` argument, and the asynchronous
send calls become lists of `(target identity, message)` pairs returned by the
routing functions.  Each embedded definition keeps the name of the source
function it models.
-/

/-- JSON values as produced by the source's json layer.  Python distinguishes
`int` and `float`, and `None` is `null`; `bool` is kept separate even though
Python's `bool` is an `int` subclass (the places where that matters are
modelled explicitly). -/
inductive Json where
  | null : Json
  | bool : Bool → Json
  | int : Int → Json
  | float : Rat → Json
  | str : String → Json
  | arr : List Json → Json
  | obj : List (String × Json) → Json

/-- A Python dict with string keys, in insertion order with unique keys. -/
abbrev Dict (α : Type) := List (String × α)

/-- Models `m.get(k)` / `m[k]` on a Python dict. -/
def dget {α : Type} (m : Dict α) (k : String) : Option α :=
  List.lookup k m

/-- Models `k in m` on a Python dict. -/
def dcontains {α : Type} (m : Dict α) (k : String) : Bool :=
  (dget m k).isSome

/-- Models `m[k] = v` on a Python dict: replaces in place when the key exists,
appends otherwise (insertion order is preserved, as in CPython). -/
def dset {α : Type} (m : Dict α) (k : String) (v : α) : Dict α :=
  if dcontains m k then
    m.map (fun p => if p.1 == k then (k, v) else p)
  else
    m ++ [(k, v)]

/-- Models `del m[k]` on a Python dict. -/
def ddelete {α : Type} (m : Dict α) (k : String) : Dict α :=
  m.filter (fun p => p.1 != k)

/-- The name Python's `type(v).__name__` produces for each JSON value. -/
def typeName : Json → String
  | .null => "NoneType"
  | .bool _ => "bool"
  | .int _ => "int"
  | .float _ => "float"
  | .str _ => "str"
  | .arr _ => "list"
  | .obj _ => "dict"

/-- Models `type(m.get(k)).__name__` where a missing key yields `None`. -/
def optTypeName : Option Json → String
  | none => "NoneType"
  | some j => typeName j

/-- Python `str.strip()` (restricted to the ASCII whitespace that occurs in
this system's messages). -/
def pyStrip (s : String) : String :=
  String.mk
    (((s.data.dropWhile Char.isWhitespace).reverse.dropWhile
        Char.isWhitespace).reverse)

/-- Tests whether an optional JSON value is the string `s`; this is how the
source compares `message.get(field)` against a string constant (`None` or a
non-string value never compares equal). -/
def jsonIsStr (j : Option Json) (s : String) : Bool :=
  match j with
  | some (.str t) => t == s
  | _ => false

namespace DRouter

def HYDRA_CLIENT : String := "HydraClient"

def HYDRA_SERVER : String := "HydraServer"

def HYDRA_ROUTER : String := "HydraRouter"

def SIMPLE_CLIENT : String := "SimpleClient"

def SIMPLE_SERVER : String := "SimpleServer"

def VALID_CLIENT_TYPES : List String :=
  [HYDRA_CLIENT, HYDRA_SERVER, HYDRA_ROUTER, SIMPLE_CLIENT, SIMPLE_SERVER]

def SENDER : String := "sender"

def ELEM : String := "elem"

def DATA : String := "data"

def CLIENT_ID : String := "client_id"

def TIMESTAMP : String := "timestamp"

def REQUEST_ID : String := "request_id"

def HEARTBEAT : String := "heartbeat"

def STATUS : String := "status"

def ERROR : String := "error"

def SQUARE_REQUEST : String := "square_request"

def SQUARE_RESPONSE : String := "square_response"

def CLIENT_REGISTRY_REQUEST : String := "client_registry_request"

def CLIENT_REGISTRY_RESPONSE : String := "client_registry_response"

def START_SIMULATION : String := "start_simulation"

def STOP_SIMULATION : String := "stop_simulation"

def PAUSE_SIMULATION : String := "pause_simulation"

def RESUME_SIMULATION : String := "resume_simulation"

def RESET_SIMULATION : String := "reset_simulation"

def GET_SIMULATION_STATUS : String := "get_simulation_status"

def STATUS_UPDATE : String := "status_update"

def SIMULATION_STARTED : String := "simulation_started"

def SIMULATION_STOPPED : String := "simulation_stopped"

def SIMULATION_PAUSED : String := "simulation_paused"

def SIMULATION_RESUMED : String := "simulation_resumed"

def SIMULATION_RESET : String := "simulation_reset"

def NO_SERVER_CONNECTED : String := "no_server_connected"

def REQUIRED_FIELDS : List String := [SENDER, ELEM]

def OPTIONAL_FIELDS : List String := [DATA, CLIENT_ID, TIMESTAMP, REQUEST_ID]

def MAX_MESSAGE_SIZE : Nat := 1024 * 1024

def MAX_DATA_SIZE : Nat := 512 * 1024

def is_valid_client_type (client_type : String) : Bool :=
  VALID_CLIENT_TYPES.contains client_type

end DRouter

/-- A wire message: the JSON object the router receives and sends
(`router.py` handles these as Python dicts). -/
abbrev Msg := Dict Json

/-- Models `ClientRegistry` state (`router.py`): `clients` maps a transport identity
to `(client_type, last_heartbeat)`; `server_id` is the tracked server slot. -/
structure ClientRegistry where
  clients : Dict (String × Rat)
  server_id : Option String
deriving DecidableEq, Repr

/-- The registry constructed by `ClientRegistry.__init__`. -/
def emptyRegistry : ClientRegistry := ⟨[], none⟩

/-- Models `ClientRegistry.register_client`: records `(client_type, now)` for the
identity and tracks the server slot, which the source updates only when
`client_type == DRouter.HYDRA_SERVER`. -/
def register_client (r : ClientRegistry) (client_id client_type : String)
    (now : Rat) : ClientRegistry :=
  let clients := dset r.clients client_id (client_type, now)
  let server_id :=
    if client_type == DRouter.HYDRA_SERVER then some client_id else r.server_id
  ⟨clients, server_id⟩

/-- Models `ClientRegistry.update_heartbeat`: refreshes the timestamp of a present
entry, keeping its type; absent identities are ignored. -/
def update_heartbeat (r : ClientRegistry) (client_id : String) (now : Rat) :
    ClientRegistry :=
  match dget r.clients client_id with
  | some (client_type, _) =>
      ⟨dset r.clients client_id (client_type, now), r.server_id⟩
  | none => r

/-- Models `ClientRegistry.remove_client`: drops a present entry and clears the
server slot when the removed identity was the server. -/
def remove_client (r : ClientRegistry) (client_id : String) : ClientRegistry :=
  match dget r.clients client_id with
  | some _ =>
      ⟨ddelete r.clients client_id,
        if r.server_id = some client_id then none else r.server_id⟩
  | none => r

/-- The body of the deletion loop in
`ClientRegistry.prune_inactive_clients`: deletes one inactive identity,
clears the server slot when that identity held it, and appends the identity
to the removed list. -/
def prune_step (st : Dict (String × Rat) × Option String × List String)
    (cid : String) : Dict (String × Rat) × Option String × List String :=
  (ddelete st.1 cid,
    (if st.2.1 = some cid then none else st.2.1),
    st.2.2 ++ [cid])

/-- Models `ClientRegistry.prune_inactive_clients`: selects the inactive identities,
then applies the deletion loop body `prune_step` to each. -/
def prune_inactive_clients (r : ClientRegistry) (timeout now : Rat) :
    ClientRegistry × List String :=
  let inactive :=
    (r.clients.filter (fun p => decide (now - p.2.2 > timeout))).map (·.1)
  let final := inactive.foldl prune_step (r.clients, r.server_id, [])
  (⟨final.1, final.2.1⟩, final.2.2)

/-- Models `ClientRegistry.get_registry_data`: one record per entry, with the wire
field names used by the source (`client_type`, `last_heartbeat`,
`is_server`); `is_server` is the Python comparison
`client_id == self.server_id`. -/
def get_registry_data (r : ClientRegistry) : Dict Json :=
  r.clients.map (fun p =>
    (p.1, Json.obj [
      ("client_type", Json.str p.2.1),
      ("last_heartbeat", Json.float p.2.2),
      ("is_server", Json.bool (decide (some p.1 = r.server_id)))]))

/-- Models `ClientRegistry.has_server`: the slot is set and still present. -/
def has_server (r : ClientRegistry) : Bool :=
  match r.server_id with
  | some sid => dcontains r.clients sid
  | none => false

/-- The escape Python's `json.dumps` applies to one character, for the ASCII
fragment that occurs in this system's messages. -/
def escChar (c : Char) : String :=
  if c = '"' then "\\\""
  else if c = '\\' then "\\\\"
  else if c = '\n' then "\\n"
  else if c = '\t' then "\\t"
  else if c = '\r' then "\\r"
  else String.singleton c

/-- Escapes a string as Python's `json.dumps` does for the ASCII fragment
that occurs in this system's messages. -/
def jsonEscape (s : String) : String :=
  String.join (s.data.map escChar)

/-- The decimal text `json.dumps` produces for a float (integral values are
rendered with a trailing `.0`; non-integral rationals are rendered through
their fraction form, which only feeds the size check). -/
def floatRepr (q : Rat) : String :=
  if q.den = 1 then toString q.num ++ ".0" else toString q

mutual

/-- Models `json.dumps` with its default separators, on the embedded JSON values. -/
def Json.dumps : Json → String
  | .null => "null"
  | .bool true => "true"
  | .bool false => "false"
  | .int n => toString n
  | .float q => floatRepr q
  | .str s => "\"" ++ jsonEscape s ++ "\""
  | .arr xs => "[" ++ Json.dumpsArr xs ++ "]"
  | .obj kvs => "\x7b" ++ Json.dumpsObj kvs ++ "\x7d"

/-- Comma-separated serialization of an array body. -/
def Json.dumpsArr : List Json → String
  | [] => ""
  | [x] => Json.dumps x
  | x :: xs => Json.dumps x ++ ", " ++ Json.dumpsArr xs

/-- Comma-separated serialization of an object body. -/
def Json.dumpsObj : List (String × Json) → String
  | [] => ""
  | [(k, v)] => "\"" ++ jsonEscape k ++ "\": " ++ Json.dumps v
  | (k, v) :: kvs =>
      "\"" ++ jsonEscape k ++ "\": " ++ Json.dumps v ++ ", " ++
        Json.dumpsObj kvs

end

/-- Models `MessageValidator._validate_sender_field`. -/
def _validate_sender_field (m : Msg) : Bool × String :=
  match dget m DRouter.SENDER with
  | some (.str sender) =>
      if (pyStrip sender).length == 0 then
        (false, "Field \x27sender\x27 must be non-empty string, got: \x27" ++
          sender ++ "\x27")
      else if ! DRouter.is_valid_client_type sender then
        (false, "Invalid sender type \x27" ++ sender ++
          "\x27, expected one of: " ++
          String.intercalate ", " DRouter.VALID_CLIENT_TYPES)
      else (true, "")
  | j => (false, "Field \x27sender\x27 must be string, got " ++ optTypeName j)

/-- Models `MessageValidator._validate_elem_field`. -/
def _validate_elem_field (m : Msg) : Bool × String :=
  match dget m DRouter.ELEM with
  | some (.str elem) =>
      if (pyStrip elem).length == 0 then
        (false, "Field \x27elem\x27 must be non-empty string, got: \x27" ++
          elem ++ "\x27")
      else (true, "")
  | j => (false, "Field \x27elem\x27 must be string, got " ++ optTypeName j)

/-- The `data` clause of `MessageValidator._validate_optional_fields`: the
source accepts a missing key, `None`, or a dict, and rejects anything else
(`data is not None and not isinstance(data, dict)`). -/
def _validate_data_field (v : Option Json) : Bool × String :=
  match v with
  | none => (true, "")
  | some .null => (true, "")
  | some (.obj _) => (true, "")
  | some d => (false, "Field \x27data\x27 must be dict or None, got " ++
      typeName d)

/-- The `client_id` clause of `_validate_optional_fields`. -/
def _validate_client_id_field (v : Option Json) : Bool × String :=
  match v with
  | none => (true, "")
  | some (.str s) =>
      if (pyStrip s).length == 0 then
        (false, "Field \x27client_id\x27 must be non-empty string, got: \x27" ++
          s ++ "\x27")
      else (true, "")
  | some j => (false, "Field \x27client_id\x27 must be string, got " ++
      typeName j)

/-- The `timestamp` clause of `_validate_optional_fields`; Python's
`isinstance(x, (int, float))` also accepts `bool` (an `int` subclass), with
`True = 1` and `False = 0`, both non-negative. -/
def _validate_timestamp_field (v : Option Json) : Bool × String :=
  match v with
  | none => (true, "")
  | some (.int n) =>
      if n < 0 then
        (false, "Field \x27timestamp\x27 must be non-negative, got: " ++
          toString n)
      else (true, "")
  | some (.float q) =>
      if q < 0 then
        (false, "Field \x27timestamp\x27 must be non-negative, got: " ++
          floatRepr q)
      else (true, "")
  | some (.bool _) => (true, "")
  | some j => (false, "Field \x27timestamp\x27 must be number, got " ++
      typeName j)

/-- The `request_id` clause of `_validate_optional_fields`. -/
def _validate_request_id_field (v : Option Json) : Bool × String :=
  match v with
  | none => (true, "")
  | some (.str s) =>
      if (pyStrip s).length == 0 then
        (false,
          "Field \x27request_id\x27 must be non-empty string, got: \x27" ++
            s ++ "\x27")
      else (true, "")
  | some j => (false, "Field \x27request_id\x27 must be string, got " ++
      typeName j)

/-- Models `MessageValidator._validate_optional_fields`: the four clauses in source
order. -/
def _validate_optional_fields (m : Msg) : Bool × String :=
  let d := _validate_data_field (dget m DRouter.DATA)
  if ! d.1 then d
  else
    let c := _validate_client_id_field (dget m DRouter.CLIENT_ID)
    if ! c.1 then c
    else
      let t := _validate_timestamp_field (dget m DRouter.TIMESTAMP)
      if ! t.1 then t
      else
        let q := _validate_request_id_field (dget m DRouter.REQUEST_ID)
        if ! q.1 then q
        else (true, "")

/-- Models `MessageValidator._validate_message_size`: byte length of the
serialization against the 1 MiB envelope cap, then of the non-null `data`
payload against the 512 KiB cap. -/
def _validate_message_size (m : Msg) : Bool × String :=
  let message_size := (Json.dumps (Json.obj m)).utf8ByteSize
  if message_size > DRouter.MAX_MESSAGE_SIZE then
    (false, "Message size " ++ toString message_size ++
      " bytes exceeds maximum " ++ toString DRouter.MAX_MESSAGE_SIZE ++
      " bytes")
  else
    match dget m DRouter.DATA with
    | some .null => (true, "")
    | some d =>
        let data_size := (Json.dumps d).utf8ByteSize
        if data_size > DRouter.MAX_DATA_SIZE then
          (false, "Data field size " ++ toString data_size ++
            " bytes exceeds maximum " ++ toString DRouter.MAX_DATA_SIZE ++
            " bytes")
        else (true, "")
    | none => (true, "")

/-- Models `MessageValidator.validate_router_message`: type check is carried by the
`Msg` type; then required fields, sender, elem, optional fields, and size,
in source order, first failure wins. -/
def validate_router_message (m : Msg) : Bool × String :=
  let missing := DRouter.REQUIRED_FIELDS.filter (fun f => ! dcontains m f)
  if missing.length != 0 then
    (false, "Missing required fields: " ++ String.intercalate ", " missing)
  else
    let s := _validate_sender_field m
    if ! s.1 then s
    else
      let e := _validate_elem_field m
      if ! e.1 then e
      else
        let o := _validate_optional_fields m
        if ! o.1 then o
        else
          let z := _validate_message_size m
          if ! z.1 then z
          else (true, "")

/-- The response dict built by `MessageRouter._handle_client_registry_request`
(field order as in the source; `message.get(REQUEST_ID)` yields `None`, i.e.
JSON null, when the request carried no `request_id`). -/
def client_registry_response_msg (r : ClientRegistry) (m : Msg) (now : Rat) :
    Msg :=
  [(DRouter.SENDER, Json.str DRouter.HYDRA_ROUTER),
   (DRouter.ELEM, Json.str DRouter.CLIENT_REGISTRY_RESPONSE),
   (DRouter.DATA, Json.obj (get_registry_data r)),
   (DRouter.CLIENT_ID, Json.str DRouter.HYDRA_ROUTER),
   (DRouter.TIMESTAMP, Json.float now),
   (DRouter.REQUEST_ID, (dget m DRouter.REQUEST_ID).getD Json.null)]

/-- Models `MessageRouter._handle_client_registry_request`: one reply to the
requesting identity. -/
def _handle_client_registry_request (r : ClientRegistry) (sender_id : String)
    (m : Msg) (now : Rat) : List (String × Msg) :=
  [(sender_id, client_registry_response_msg r m now)]

/-- The error dict built by `MessageRouter._send_no_server_error`. -/
def no_server_error_msg (m : Msg) (now : Rat) : Msg :=
  [(DRouter.SENDER, Json.str DRouter.HYDRA_ROUTER),
   (DRouter.ELEM, Json.str DRouter.ERROR),
   (DRouter.DATA, Json.obj [
      ("error", Json.str DRouter.NO_SERVER_CONNECTED),
      ("message", Json.str "No server connected to handle client request"),
      ("original_request", (dget m DRouter.ELEM).getD Json.null)]),
   (DRouter.CLIENT_ID, Json.str DRouter.HYDRA_ROUTER),
   (DRouter.TIMESTAMP, Json.float now),
   (DRouter.REQUEST_ID, (dget m DRouter.REQUEST_ID).getD Json.null)]

/-- Models `MessageRouter._send_no_server_error`: one error reply to the sender. -/
def _send_no_server_error (sender_id : String) (m : Msg) (now : Rat) :
    List (String × Msg) :=
  [(sender_id, no_server_error_msg m now)]

/-- Models `MessageRouter._forward_to_server`: the caller has already checked
`has_server`; the source then re-reads `server_id` and sends only when it is
a truthy (non-empty) string. -/
def _forward_to_server (r : ClientRegistry) (m : Msg) : List (String × Msg) :=
  match r.server_id with
  | some sid => if sid.length != 0 then [(sid, m)] else []
  | none => []

/-- Models `MessageRouter._broadcast_to_clients`: iterates the registry snapshot in
order, skipping the excluded sender and every entry whose `client_type` is
one of the two server roles, and sends the message unchanged to the rest. -/
def _broadcast_to_clients (r : ClientRegistry) (m : Msg)
    (exclude_sender : Option String) : List (String × Msg) :=
  r.clients.filterMap (fun p =>
    if some p.1 == exclude_sender then none
    else if p.2.1 == DRouter.HYDRA_SERVER || p.2.1 == DRouter.SIMPLE_SERVER
    then none
    else some (p.1, m))

/-- Models `MessageRouter._route_client_message`: registry-request, then heartbeat,
then forward-or-error; returns the updated registry and the outbound list. -/
def _route_client_message (r : ClientRegistry) (sender_id : String) (m : Msg)
    (now : Rat) : ClientRegistry × List (String × Msg) :=
  let elem := dget m DRouter.ELEM
  if jsonIsStr elem DRouter.CLIENT_REGISTRY_REQUEST then
    (r, _handle_client_registry_request r sender_id m now)
  else if jsonIsStr elem DRouter.HEARTBEAT then
    (update_heartbeat r sender_id now, [])
  else if has_server r then
    (r, _forward_to_server r m)
  else
    (r, _send_no_server_error sender_id m now)

/-- Models `MessageRouter._route_server_message`: heartbeat is update-only; every
other elem is broadcast to the clients, excluding the sender. -/
def _route_server_message (r : ClientRegistry) (sender_id : String) (m : Msg)
    (now : Rat) : ClientRegistry × List (String × Msg) :=
  let elem := dget m DRouter.ELEM
  if jsonIsStr elem DRouter.HEARTBEAT then
    (update_heartbeat r sender_id now, [])
  else
    (r, _broadcast_to_clients r m (some sender_id))

/-- Models `MessageRouter.route_message`: dispatch on the envelope's declared
`sender`; unknown sender types are logged and dropped. -/
def route_message (r : ClientRegistry) (sender_id : String) (m : Msg)
    (now : Rat) : ClientRegistry × List (String × Msg) :=
  let sender_type := dget m DRouter.SENDER
  if jsonIsStr sender_type DRouter.HYDRA_CLIENT ||
      jsonIsStr sender_type DRouter.SIMPLE_CLIENT then
    _route_client_message r sender_id m now
  else if jsonIsStr sender_type DRouter.HYDRA_SERVER ||
      jsonIsStr sender_type DRouter.SIMPLE_SERVER then
    _route_server_message r sender_id m now
  else
    (r, [])

/-- Models `HydraRouter._ensure_client_registered`: registers the identity with the
envelope's declared `sender` when the identity is absent from the registry
snapshot and the sender value is truthy; known identities are returned
unchanged (the source has no else-branch).  Validation guarantees `sender`
is a string when this runs. -/
def _ensure_client_registered (r : ClientRegistry) (client_id : String)
    (m : Msg) (now : Rat) : ClientRegistry :=
  if (List.lookup client_id (get_registry_data r)).isSome then r
  else
    match dget m DRouter.SENDER with
    | some (.str client_type) =>
        if client_type.length != 0 then
          register_client r client_id client_type now
        else r
    | _ => r

/-- The body of `HydraRouter.handle_requests` for one validated message:
ensure-registered, then route. -/
def handleValidatedMessage (r : ClientRegistry) (identity : String) (m : Msg)
    (now : Rat) : ClientRegistry × List (String × Msg) :=
  route_message (_ensure_client_registered r identity m now) identity m now

/-- The `MsgType`/`DMsgType` enumeration (`constants/DMsgType.py`). -/
inductive DMsgType where
  | heartbeat
  | square_request
  | square_response
  | error
  | client_registry_request
  | client_registry_response
  | start_simulation
  | stop_simulation
  | pause_simulation
  | resume_simulation
  | reset_simulation
  | get_simulation_status
  | status_update
  | simulation_started
  | simulation_stopped
  | simulation_paused
  | simulation_resumed
  | simulation_reset
deriving DecidableEq, Repr

/-- The `.value` string of each enum member. -/
def DMsgType.val : DMsgType → String
  | .heartbeat => "heartbeat"
  | .square_request => "square_request"
  | .square_response => "square_response"
  | .error => "error"
  | .client_registry_request => "client_registry_request"
  | .client_registry_response => "client_registry_response"
  | .start_simulation => "start_simulation"
  | .stop_simulation => "stop_simulation"
  | .pause_simulation => "pause_simulation"
  | .resume_simulation => "resume_simulation"
  | .reset_simulation => "reset_simulation"
  | .get_simulation_status => "get_simulation_status"
  | .status_update => "status_update"
  | .simulation_started => "simulation_started"
  | .simulation_stopped => "simulation_stopped"
  | .simulation_paused => "simulation_paused"
  | .simulation_resumed => "simulation_resumed"
  | .simulation_reset => "simulation_reset"

/-- All enum members in declaration order. -/
def DMsgType.all : List DMsgType :=
  [.heartbeat, .square_request, .square_response, .error,
   .client_registry_request, .client_registry_response,
   .start_simulation, .stop_simulation, .pause_simulation,
   .resume_simulation, .reset_simulation, .get_simulation_status,
   .status_update, .simulation_started, .simulation_stopped,
   .simulation_paused, .simulation_resumed, .simulation_reset]

/-- Python's `DMsgType(s)` constructor: the member with value `s`, or a
`ValueError` (`none`). -/
def parseDMsgType (s : String) : Option DMsgType :=
  DMsgType.all.find? (fun t => t.val == s)

/-- Models `MQClient._create_message_type_mapping`: enum value to router elem, in
source insertion order. -/
def message_type_mapping : List (String × String) :=
  [(DMsgType.heartbeat.val, DRouter.HEARTBEAT),
   (DMsgType.square_request.val, DRouter.SQUARE_REQUEST),
   (DMsgType.square_response.val, DRouter.SQUARE_RESPONSE),
   (DMsgType.client_registry_request.val, DRouter.CLIENT_REGISTRY_REQUEST),
   (DMsgType.client_registry_response.val, DRouter.CLIENT_REGISTRY_RESPONSE),
   (DMsgType.start_simulation.val, DRouter.START_SIMULATION),
   (DMsgType.stop_simulation.val, DRouter.STOP_SIMULATION),
   (DMsgType.pause_simulation.val, DRouter.PAUSE_SIMULATION),
   (DMsgType.resume_simulation.val, DRouter.RESUME_SIMULATION),
   (DMsgType.reset_simulation.val, DRouter.RESET_SIMULATION),
   (DMsgType.get_simulation_status.val, DRouter.GET_SIMULATION_STATUS),
   (DMsgType.status_update.val, DRouter.STATUS_UPDATE),
   (DMsgType.simulation_started.val, DRouter.SIMULATION_STARTED),
   (DMsgType.simulation_stopped.val, DRouter.SIMULATION_STOPPED),
   (DMsgType.simulation_paused.val, DRouter.SIMULATION_PAUSED),
   (DMsgType.simulation_resumed.val, DRouter.SIMULATION_RESUMED),
   (DMsgType.simulation_reset.val, DRouter.SIMULATION_RESET),
   (DMsgType.error.val, DRouter.ERROR)]

/-- Models `MQClient._map_message_type_to_elem`: mapping lookup with the input
itself as default. -/
def _map_message_type_to_elem (message_type : String) : String :=
  (List.lookup message_type message_type_mapping).getD message_type

/-- Models `MQClient._map_elem_to_message_type`: first mapping entry whose router
elem matches and whose key parses as an enum member, else a direct enum
parse, else a `MessageFormatError` (`none`). -/
def _map_elem_to_message_type (elem : String) : Option DMsgType :=
  match (message_type_mapping.filter (fun p => p.2 == elem)).findSome?
      (fun p => parseDMsgType p.1) with
  | some t => some t
  | none => parseDMsgType elem

/-- The `ZMQMessage` dataclass (`mq_client.py`), with the types of its field
annotations; `__post_init__` guarantees `timestamp` is always set, so it is
total here. -/
structure ZMQMessage where
  message_type : DMsgType
  timestamp : Rat
  client_id : Option String
  request_id : Option String
  data : Option (Dict Json)

/-- Models `MQClient._convert_to_router_format`: `sender`, `elem`, `timestamp`
always; `data` and `client_id` when not `None`; `request_id` only when
truthy (a present empty string is dropped). -/
def _convert_to_router_format (client_type : String) (m : ZMQMessage) : Msg :=
  [(DRouter.SENDER, Json.str client_type),
   (DRouter.ELEM, Json.str (_map_message_type_to_elem m.message_type.val)),
   (DRouter.TIMESTAMP, Json.float m.timestamp)]
  ++ (match m.data with
      | some d => [(DRouter.DATA, Json.obj d)]
      | none => [])
  ++ (match m.client_id with
      | some c => [(DRouter.CLIENT_ID, Json.str c)]
      | none => [])
  ++ (match m.request_id with
      | some rid =>
          if rid.length != 0 then [(DRouter.REQUEST_ID, Json.str rid)] else []
      | none => [])

/-- Models `MQClient._convert_from_router_format`: a missing `elem` defaults to the
empty string and a non-string `elem` fails both enum lookups; the optional
fields are read back with the dataclass's annotated types (a JSON null reads
as `None`); a missing or non-numeric `timestamp` falls back to the receiving
clock, passed here as `fallback_now`. -/
def _convert_from_router_format (rm : Msg) (fallback_now : Rat) :
    Option ZMQMessage :=
  let mt? :=
    match dget rm DRouter.ELEM with
    | some (.str s) => _map_elem_to_message_type s
    | none => _map_elem_to_message_type ""
    | some _ => none
  match mt? with
  | none => none
  | some mt =>
      some ⟨mt,
        (match dget rm DRouter.TIMESTAMP with
         | some (.float q) => q
         | some (.int n) => (n : Rat)
         | _ => fallback_now),
        (match dget rm DRouter.CLIENT_ID with
         | some (.str s) => some s
         | _ => none),
        (match dget rm DRouter.REQUEST_ID with
         | some (.str s) => some s
         | _ => none),
        (match dget rm DRouter.DATA with
         | some (.obj o) => some o
         | _ => none)⟩

/-- The observable outcome of `MQClient._process_received_message`. -/
inductive ReceiveAction where
  | completed (request_id : String)
  | handled (message_type : DMsgType)
  | unhandled (message_type : DMsgType)
  | failed
deriving DecidableEq, Repr

/-- Models `MQClient._process_received_message`: a truthy `request_id` that is a
pending key completes and removes that slot; otherwise the message is
converted and dispatched to the registered handler for its type, logged and
dropped when no handler exists, and a conversion failure is caught and
logged.  `pending` is the key set of `pending_requests`, `handlers` the key
set of `message_handlers`. -/
def _process_received_message (pending : List String)
    (handlers : List DMsgType) (m : Msg) (now : Rat) :
    ReceiveAction × List String :=
  let fallthrough : ReceiveAction × List String :=
    match _convert_from_router_format m now with
    | none => (.failed, pending)
    | some z =>
        if handlers.contains z.message_type then
          (.handled z.message_type, pending)
        else
          (.unhandled z.message_type, pending)
  match dget m DRouter.REQUEST_ID with
  | some (.str rid) =>
      if rid.length != 0 && pending.contains rid then
        (.completed rid, pending.erase rid)
      else fallthrough
  | _ => fallthrough

/-- A validated square-request envelope from a client. -/
def mSquareReq : Msg :=
  [(DRouter.SENDER, Json.str DRouter.HYDRA_CLIENT),
   (DRouter.ELEM, Json.str DRouter.SQUARE_REQUEST),
   (DRouter.REQUEST_ID, Json.str "r1")]

/-- Claim C1: registering a peer under either server role sets the server
slot.  The code sets the slot only for the HydraServer role: a SimpleServer
registration leaves the slot empty, `has_server` stays false, and a client's
subsequent request is answered with a no-server error instead of being
forwarded to the SimpleServer — contradicting the spec's routing rules and
the repository's own integration test for the SimpleServer square
calculation. -/
theorem register_simple_server_leaves_slot_empty :
    (register_client emptyRegistry "S" DRouter.SIMPLE_SERVER 0).server_id
        = none ∧
    (register_client emptyRegistry "S" DRouter.HYDRA_SERVER 0).server_id
        = some "S" ∧
    has_server (register_client emptyRegistry "S" DRouter.SIMPLE_SERVER 0)
        = false ∧
    ((handleValidatedMessage
        (register_client emptyRegistry "S" DRouter.SIMPLE_SERVER 0)
        "c1" mSquareReq 1).2.all
      (fun p => p.1 != "S" &&
        jsonIsStr (dget p.2 DRouter.ELEM) DRouter.ERROR)) = true :=
  ⟨rfl, rfl, rfl, rfl⟩

/-- A registry holding one known HydraClient with heartbeat 0. -/
def regOneClient : ClientRegistry :=
  ⟨[("c1", (DRouter.HYDRA_CLIENT, (0 : Rat)))], none⟩

/-- Claim C2 counterexample: a validated non-heartbeat envelope from the
known sender `c1` is dispatched at time 5, yet the dispatcher leaves the
entry's `last_heartbeat` at 0 — the ensure-registered step does not touch
known entries, contrary to the claim. -/
theorem known_sender_not_touched_cex :
    (handleValidatedMessage regOneClient "c1" mSquareReq 5).1 = regOneClient ∧
    dget regOneClient.clients "c1" = some (DRouter.HYDRA_CLIENT, (0 : Rat)) ∧
    (0 : Rat) ≠ 5 :=
  ⟨rfl, rfl, by norm_num⟩

/-- A validated registry request declared by a SimpleServer sender. -/
def mRegistryReqFromServer : Msg :=
  [(DRouter.SENDER, Json.str DRouter.SIMPLE_SERVER),
   (DRouter.ELEM, Json.str DRouter.CLIENT_REGISTRY_REQUEST),
   (DRouter.REQUEST_ID, Json.str "q1")]

/-- A registry holding one client and one SimpleServer. -/
def regClientAndServer : ClientRegistry :=
  ⟨[("c1", (DRouter.HYDRA_CLIENT, (0 : Rat))),
    ("s1", (DRouter.SIMPLE_SERVER, (0 : Rat)))], none⟩

/-- Claim C3 counterexample: a `client_registry_request` from a server-role
sender is not answered: the router broadcasts the request itself to the
client `c1`, sends nothing back to the sender `s1`, and emits no
`client_registry_response` at all. -/
theorem server_registry_request_broadcast_cex :
    (route_message regClientAndServer "s1" mRegistryReqFromServer 1).2
        = [("c1", mRegistryReqFromServer)] ∧
    ((route_message regClientAndServer "s1" mRegistryReqFromServer 1).2.all
      (fun p => p.1 != "s1" &&
        ! jsonIsStr (dget p.2 DRouter.ELEM)
            DRouter.CLIENT_REGISTRY_RESPONSE)) = true :=
  ⟨rfl, rfl⟩

/-- A registry whose only entry besides the sending server carries the
reserved HydraRouter role (reachable: a validated envelope declaring
`sender = HydraRouter` registers its identity with that type). -/
def regRouterRolePeer : ClientRegistry :=
  ⟨[("r1", (DRouter.HYDRA_ROUTER, (0 : Rat))),
    ("s1", (DRouter.SIMPLE_SERVER, (0 : Rat)))], none⟩

/-- A status-update envelope from a SimpleServer. -/
def mStatusUpdate : Msg :=
  [(DRouter.SENDER, Json.str DRouter.SIMPLE_SERVER),
   (DRouter.ELEM, Json.str DRouter.STATUS_UPDATE)]

/-- Claim C4 counterexample: the registry holds no client-role identity, yet
broadcasting a server envelope emits one message — to the identity
registered under the reserved HydraRouter role — so "if the set of such
clients is empty, nothing is emitted" fails on the code. -/
theorem broadcast_router_role_peer_cex :
    ((regRouterRolePeer.clients.filter
        (fun p => p.2.1 == DRouter.HYDRA_CLIENT ||
          p.2.1 == DRouter.SIMPLE_CLIENT)) = []) ∧
    (_route_server_message regRouterRolePeer "s1" mStatusUpdate 1).2
        = [("r1", mStatusUpdate)] :=
  ⟨rfl, rfl⟩

/-- A validated registry request that carries no `request_id`. -/
def mRegistryReqNoRid : Msg :=
  [(DRouter.SENDER, Json.str DRouter.HYDRA_CLIENT),
   (DRouter.ELEM, Json.str DRouter.CLIENT_REGISTRY_REQUEST)]

/-- Claim C5 counterexample: when the triggering request carries no
`request_id`, the router's registry response does not omit the field — it
carries an explicit JSON null (and the no-server error reply does the
same). -/
theorem response_request_id_null_cex :
    dget (client_registry_response_msg regOneClient mRegistryReqNoRid 2)
        DRouter.REQUEST_ID = some Json.null ∧
    dget (client_registry_response_msg regOneClient mRegistryReqNoRid 2)
        DRouter.REQUEST_ID ≠ none ∧
    dget (no_server_error_msg mRegistryReqNoRid 2) DRouter.REQUEST_ID
        = some Json.null :=
  ⟨rfl,
    by
      intro h
      rw [show dget (client_registry_response_msg regOneClient
          mRegistryReqNoRid 2) DRouter.REQUEST_ID = some Json.null from rfl]
        at h
      exact Option.noConfusion h,
    rfl⟩

/-- The keys of a JSON object (empty for any other value). -/
def objKeys : Json → List String
  | .obj kvs => kvs.map (·.1)
  | _ => []

/-- Claim C6 counterexample: the registry-response record stores the
peer-role tag under the field name `client_type`, not `role`: the record for
`c1` has exactly the keys `client_type`, `last_heartbeat`, `is_server`, and
no `role` key. -/
theorem registry_record_field_names_cex :
    (get_registry_data regOneClient).map (fun p => objKeys p.2)
        = [["client_type", "last_heartbeat", "is_server"]] ∧
    ((get_registry_data regOneClient).all
      (fun p => ! (objKeys p.2).contains "role")) = true :=
  ⟨rfl, rfl⟩

/-- A late square-response reply carrying an already-settled request id. -/
def mLateReply : Msg :=
  [(DRouter.SENDER, Json.str DRouter.SIMPLE_SERVER),
   (DRouter.ELEM, Json.str DRouter.SQUARE_RESPONSE),
   (DRouter.TIMESTAMP, Json.float 1),
   (DRouter.REQUEST_ID, Json.str "r1")]

/-- Claim C8 counterexample: with the slot for `r1` already completed or
timed out (no pending entry) and a handler registered for the
square-response kind, the late reply is not discarded: the handler is
invoked. -/
theorem late_reply_invokes_handler_cex :
    _process_received_message [] [DMsgType.square_response] mLateReply 2
        = (ReceiveAction.handled DMsgType.square_response, []) :=
  rfl

/-- A validated envelope whose `data` field is an explicit JSON null. -/
def mDataNull : Msg :=
  [(DRouter.SENDER, Json.str DRouter.HYDRA_CLIENT),
   (DRouter.ELEM, Json.str DRouter.SQUARE_REQUEST),
   (DRouter.DATA, Json.null)]

/-- Claim C9 counterexample: an envelope with `data` present and null is
accepted by the validator (the source's guard is
`data is not None and not isinstance(data, dict)`), contradicting the claim
that a null `data` value is rejected. -/
theorem data_null_accepted_cex :
    validate_router_message mDataNull = (true, "") :=
  rfl


lemma lookup_map_replace_ne {α : Type} (m : Dict α) (k k' : String) (v : α)
    (h : k' ≠ k) :
    List.lookup k' (m.map (fun p => if p.1 == k then (k, v) else p))
      = List.lookup k' m := by
  induction m with
  | nil => rfl
  | cons p t ih =>
    by_cases hp : (p.1 == k) = true
    · have hpk : p.1 = k := beq_iff_eq.mp hp
      have h1 : (k' == k) = false := beq_eq_false_iff_ne.mpr h
      have h2 : (k' == p.1) = false := beq_eq_false_iff_ne.mpr (hpk ▸ h)
      rw [List.map_cons, if_pos hp]
      simp only [List.lookup, h1, h2]
      exact ih
    · rw [List.map_cons, if_neg hp]
      cases hq : (k' == p.1) with
      | true => simp only [List.lookup, hq]
      | false =>
        simp only [List.lookup, hq]
        exact ih

lemma lookup_append_single_ne {α : Type} (m : Dict α) (k k' : String) (v : α)
    (h : k' ≠ k) :
    List.lookup k' (m ++ [(k, v)]) = List.lookup k' m := by
  induction m with
  | nil => simp [List.lookup, beq_eq_false_iff_ne.mpr h]
  | cons p t ih =>
    cases hq : (k' == p.1) <;> simp [List.lookup, hq, ih]

lemma lookup_append_single_self {α : Type} (m : Dict α) (k : String) (v : α)
    (h : List.lookup k m = none) :
    List.lookup k (m ++ [(k, v)]) = some v := by
  induction m with
  | nil => simp [List.lookup]
  | cons p t ih =>
    cases hq : (k == p.1) with
    | true => simp [List.lookup, hq] at h
    | false =>
      simp only [List.lookup, hq] at h
      simp [List.lookup, hq, ih h]

lemma dget_dset_eq {α : Type} (m : Dict α) (k : String) (v : α) :
    dget (dset m k v) k = some v := by
  unfold dset dcontains dget
  by_cases h : (List.lookup k m).isSome = true
  · simp only [h, if_true]
    induction m with
    | nil => simp [List.lookup] at h
    | cons p t ih =>
      by_cases hp : (p.1 == k) = true
      · rw [List.map_cons, if_pos hp]
        simp [List.lookup]
      · have hp' : (p.1 == k) = false := by simpa using hp
        have hk : (k == p.1) = false := by
          rw [beq_eq_false_iff_ne] at hp' ⊢
          exact fun e => hp' e.symm
        simp only [List.lookup, hk] at h
        rw [List.map_cons, if_neg hp]
        simp only [List.lookup, hk]
        exact ih h
  · have h' : List.lookup k m = none := by
      cases hx : List.lookup k m <;> simp [hx] at h ⊢
    simp only [h', Option.isSome_none, Bool.false_eq_true, if_false]
    exact lookup_append_single_self m k v h'

lemma dget_dset_ne {α : Type} (m : Dict α) (k k' : String) (v : α)
    (h : k' ≠ k) :
    dget (dset m k v) k' = dget m k' := by
  unfold dset dcontains dget
  by_cases hc : (List.lookup k m).isSome = true
  · simp only [hc, if_true]
    exact lookup_map_replace_ne m k k' v h
  · simp only [hc, if_false]
    exact lookup_append_single_ne m k k' v h

lemma dget_ddelete_ne {α : Type} (m : Dict α) (k k' : String) (h : k' ≠ k) :
    dget (ddelete m k) k' = dget m k' := by
  unfold ddelete dget
  induction m with
  | nil => rfl
  | cons p t ih =>
    by_cases hp : (p.1 != k) = true
    · cases hq : (k' == p.1) <;> simp [List.filter, hp, List.lookup, hq, ih]
    · have hpk : p.1 = k := by simpa using hp
      have hq : (k' == p.1) = false := beq_eq_false_iff_ne.mpr (hpk ▸ h)
      simp [List.filter, hp, List.lookup, hq, ih]

lemma dcontains_dset_self {α : Type} (m : Dict α) (k : String) (v : α) :
    dcontains (dset m k v) k = true := by
  unfold dcontains
  rw [dget_dset_eq]
  rfl

lemma dcontains_dset_of_mem {α : Type} (m : Dict α) (k k' : String) (v : α)
    (h : dcontains m k' = true) : dcontains (dset m k v) k' = true := by
  by_cases hk : k' = k
  · subst hk
    exact dcontains_dset_self m k' v
  · unfold dcontains
    rw [dget_dset_ne m k k' v hk]
    exact h

lemma dcontains_ddelete_ne {α : Type} (m : Dict α) (k k' : String)
    (hne : k' ≠ k) (h : dcontains m k' = true) :
    dcontains (ddelete m k) k' = true := by
  unfold dcontains
  rw [dget_ddelete_ne m k k' hne]
  exact h

/-- One registry operation of the claim's closed set, with the clock value
each timed operation observes. -/
inductive RegOp where
  | register (client_id client_type : String) (now : Rat)
  | heartbeat (client_id : String) (now : Rat)
  | remove (client_id : String)
  | prune (timeout now : Rat)

/-- Applies one registry operation. -/
def applyRegOp (r : ClientRegistry) : RegOp → ClientRegistry
  | .register client_id client_type now =>
      register_client r client_id client_type now
  | .heartbeat client_id now => update_heartbeat r client_id now
  | .remove client_id => remove_client r client_id
  | .prune timeout now => (prune_inactive_clients r timeout now).1

/-- Applies a sequence of registry operations to the empty registry. -/
def applyRegOps (ops : List RegOp) : ClientRegistry :=
  ops.foldl applyRegOp emptyRegistry

lemma prune_foldl_inv (l : List String)
    (st : Dict (String × Rat) × Option String × List String)
    (h : ∀ sid, st.2.1 = some sid → dcontains st.1 sid = true) :
    ∀ sid, (l.foldl prune_step st).2.1 = some sid →
      dcontains (l.foldl prune_step st).1 sid = true := by
  induction l generalizing st with
  | nil => exact h
  | cons cid rest ih =>
    intro sid hs
    refine ih (prune_step st cid) ?_ sid hs
    intro sid' hs'
    unfold prune_step at hs' ⊢
    by_cases hc : st.2.1 = some cid
    · simp [hc] at hs'
    · simp only [if_neg hc] at hs'
      have hins : dcontains st.1 sid' = true := h sid' hs'
      have hne : sid' ≠ cid := by
        intro e
        exact hc (e ▸ hs')
      exact dcontains_ddelete_ne st.1 cid sid' hne hins

lemma applyRegOp_inv (r : ClientRegistry)
    (h : ∀ sid, r.server_id = some sid → dcontains r.clients sid = true)
    (op : RegOp) :
    ∀ sid, (applyRegOp r op).server_id = some sid →
      dcontains (applyRegOp r op).clients sid = true := by
  cases op with
  | register client_id client_type now =>
    intro sid hs
    unfold applyRegOp register_client at hs ⊢
    by_cases hc : (client_type == DRouter.HYDRA_SERVER) = true
    · simp only [hc, if_true] at hs ⊢
      have hsid : sid = client_id := by
        injection hs with h2
        exact h2.symm
      subst hsid
      exact dcontains_dset_self r.clients sid _
    · have hc' : (client_type == DRouter.HYDRA_SERVER) = false := by
        simpa using hc
      simp only [hc', Bool.false_eq_true, if_false] at hs ⊢
      exact dcontains_dset_of_mem r.clients client_id sid _ (h sid hs)
  | heartbeat client_id now =>
    intro sid hs
    unfold applyRegOp update_heartbeat at hs ⊢
    cases hg : dget r.clients client_id with
    | some p =>
      cases p with
      | mk client_type hb =>
        simp only [hg] at hs ⊢
        exact dcontains_dset_of_mem r.clients client_id sid _ (h sid hs)
    | none =>
      simp only [hg] at hs ⊢
      exact h sid hs
  | remove client_id =>
    intro sid hs
    unfold applyRegOp remove_client at hs ⊢
    cases hg : dget r.clients client_id with
    | some p =>
      simp only [hg] at hs ⊢
      by_cases hc : r.server_id = some client_id
      · simp [hc] at hs
      · simp only [if_neg hc] at hs
        have hne : sid ≠ client_id := by
          intro e
          exact hc (e ▸ hs)
        exact dcontains_ddelete_ne r.clients client_id sid hne (h sid hs)
    | none =>
      simp only [hg] at hs ⊢
      exact h sid hs
  | prune timeout now =>
    intro sid hs
    unfold applyRegOp prune_inactive_clients at hs ⊢
    exact prune_foldl_inv _ (r.clients, r.server_id, []) h sid hs

/-- Claim C10: after any finite sequence of registry operations starting
from the empty registry, a non-empty server slot always names an identity
still present in the registry. -/
theorem server_slot_always_present (ops : List RegOp) (sid : String)
    (h : (applyRegOps ops).server_id = some sid) :
    dcontains (applyRegOps ops).clients sid = true := by
  unfold applyRegOps at h ⊢
  have main : ∀ (l : List RegOp) (r : ClientRegistry),
      (∀ s, r.server_id = some s → dcontains r.clients s = true) →
      ∀ s, (l.foldl applyRegOp r).server_id = some s →
        dcontains (l.foldl applyRegOp r).clients s = true := by
    intro l
    induction l with
    | nil => intro r hr s hs; exact hr s hs
    | cons op rest ih =>
      intro r hr s hs
      exact ih (applyRegOp r op) (applyRegOp_inv r hr op) s hs
  refine main ops emptyRegistry ?_ sid h
  intro s hs
  simp [emptyRegistry] at hs

/-- Witness for C10 at a concrete operation sequence: registering a
HydraServer puts it in the slot and in the registry. -/
theorem server_slot_always_present_witness :
    (applyRegOps [RegOp.register "S" "HydraServer" 0]).server_id = some "S" ∧
    dcontains (applyRegOps [RegOp.register "S" "HydraServer" 0]).clients "S"
      = true :=
  ⟨rfl, server_slot_always_present [RegOp.register "S" "HydraServer" 0] "S" rfl⟩

lemma map_elem_roundtrip (mt : DMsgType) :
    _map_elem_to_message_type (_map_message_type_to_elem mt.val) = some mt := by
  cases mt <;> rfl

/-- Claim C7: converting an application envelope to wire format and back is
the identity, for every envelope kind in the enumeration, provided the
optional fields are absent or valid per the schema (`request_id` and
`client_id` non-empty when present); `timestamp`, `data`, `client_id` and
`request_id` come back verbatim. -/
theorem wire_format_roundtrip (client_type : String) (m : ZMQMessage)
    (now : Rat)
    (hrid : m.request_id = none ∨
      ∃ s, m.request_id = some s ∧ s.length ≠ 0)
    (hcid : m.client_id = none ∨
      ∃ s, m.client_id = some s ∧ (pyStrip s).length ≠ 0) :
    _convert_from_router_format (_convert_to_router_format client_type m) now
      = some m := by
  obtain ⟨mt, ts, cid, rid, dat⟩ := m
  rcases hrid with hr | ⟨s, hr, hs⟩
  · simp only at hr
    subst hr
    cases cid <;> cases dat <;>
      simp [_convert_to_router_format, _convert_from_router_format, dget,
        List.lookup, map_elem_roundtrip, DRouter.SENDER, DRouter.ELEM,
        DRouter.TIMESTAMP, DRouter.DATA, DRouter.CLIENT_ID, DRouter.REQUEST_ID]
  · simp only at hr
    subst hr
    cases cid <;> cases dat <;>
      simp [_convert_to_router_format, _convert_from_router_format, dget,
        List.lookup, map_elem_roundtrip, hs, DRouter.SENDER, DRouter.ELEM,
        DRouter.TIMESTAMP, DRouter.DATA, DRouter.CLIENT_ID, DRouter.REQUEST_ID]

/-- Witness for C7 at a concrete envelope: a square request with data,
client id, and request id survives the round trip unchanged. -/
theorem wire_format_roundtrip_witness :
    _convert_from_router_format
        (_convert_to_router_format DRouter.SIMPLE_CLIENT
          ⟨DMsgType.square_request, 7, some "c-1", some "r-1",
            some [("number", Json.int 7)]⟩) 0
      = some ⟨DMsgType.square_request, 7, some "c-1", some "r-1",
          some [("number", Json.int 7)]⟩ :=
  wire_format_roundtrip DRouter.SIMPLE_CLIENT
    ⟨DMsgType.square_request, 7, some "c-1", some "r-1",
      some [("number", Json.int 7)]⟩ 0
    (Or.inr ⟨"r-1", rfl, by decide⟩)
    (Or.inr ⟨"c-1", rfl, by decide⟩)

lemma lookup_map_fst_isSome {α β : Type} (l : List (String × α))
    (f : String × α → β) (k : String) :
    (List.lookup k (l.map (fun p => (p.1, f p)))).isSome
      = (List.lookup k l).isSome := by
  induction l with
  | nil => rfl
  | cons p t ih =>
    cases hq : (k == p.1) <;> simp [List.lookup, hq, ih]

lemma lookup_registry_data_isSome (r : ClientRegistry) (k : String) :
    (List.lookup k (get_registry_data r)).isSome
      = (List.lookup k r.clients).isSome := by
  unfold get_registry_data
  exact lookup_map_fst_isSome r.clients _ k

/-- Claim C2 amended: the ensure-registered step never touches a known
sender.  A validated non-heartbeat envelope from a known sender leaves that
sender's registry entry (type and `last_heartbeat`) unchanged through the
whole dispatch, and an unknown sender with a truthy declared role is
registered with that role. -/
theorem dispatcher_known_sender_untouched (r : ClientRegistry) (id : String)
    (m : Msg) (now : Rat) (ty : String) (hb : Rat) (s : String) :
    (dget r.clients id = some (ty, hb) →
      jsonIsStr (dget m DRouter.ELEM) DRouter.HEARTBEAT = false →
      dget ((handleValidatedMessage r id m now).1).clients id
        = some (ty, hb)) ∧
    ((List.lookup id (get_registry_data r)).isSome = false →
      dget m DRouter.SENDER = some (Json.str s) →
      s.length ≠ 0 →
      _ensure_client_registered r id m now = register_client r id s now) := by
  constructor
  · intro hknown helem
    have hens : _ensure_client_registered r id m now = r := by
      unfold _ensure_client_registered
      have hl : (List.lookup id (get_registry_data r)).isSome = true := by
        rw [lookup_registry_data_isSome]
        unfold dget at hknown
        rw [hknown]
        rfl
      simp [hl]
    unfold handleValidatedMessage
    rw [hens]
    unfold route_message
    by_cases h1 : (jsonIsStr (dget m DRouter.SENDER) DRouter.HYDRA_CLIENT ||
        jsonIsStr (dget m DRouter.SENDER) DRouter.SIMPLE_CLIENT) = true
    · simp only [h1, if_true]
      unfold _route_client_message
      by_cases h2 : jsonIsStr (dget m DRouter.ELEM)
          DRouter.CLIENT_REGISTRY_REQUEST = true
      · simp [h2, hknown]
      · have h2' : jsonIsStr (dget m DRouter.ELEM)
            DRouter.CLIENT_REGISTRY_REQUEST = false := by simpa using h2
        by_cases h3 : has_server r = true
        · simp [h2', helem, h3, hknown]
        · have h3' : has_server r = false := by simpa using h3
          simp [h2', helem, h3', hknown]
    · have h1' : (jsonIsStr (dget m DRouter.SENDER) DRouter.HYDRA_CLIENT ||
          jsonIsStr (dget m DRouter.SENDER) DRouter.SIMPLE_CLIENT) = false := by
        simpa using h1
      by_cases h4 : (jsonIsStr (dget m DRouter.SENDER) DRouter.HYDRA_SERVER ||
          jsonIsStr (dget m DRouter.SENDER) DRouter.SIMPLE_SERVER) = true
      · simp only [h1', Bool.false_eq_true, if_false, h4, if_true]
        unfold _route_server_message
        simp [helem, hknown]
      · have h4' : (jsonIsStr (dget m DRouter.SENDER) DRouter.HYDRA_SERVER ||
            jsonIsStr (dget m DRouter.SENDER) DRouter.SIMPLE_SERVER)
              = false := by simpa using h4
        simp [h1', h4', hknown]
  · intro hunknown hsender hslen
    unfold _ensure_client_registered
    have hlen : (s.length != 0) = true := by simpa [bne_iff_ne] using hslen
    simp [hunknown, hsender, hlen]

/-- Witness for the amended C2: a known client with heartbeat 0 stays at 0
through a square-request dispatch at time 5, and an unknown identity is
registered with the declared HydraClient role. -/
theorem dispatcher_known_sender_untouched_witness :
    dget ((handleValidatedMessage regOneClient "c1" mSquareReq 5).1).clients
        "c1" = some (DRouter.HYDRA_CLIENT, (0 : Rat)) ∧
    _ensure_client_registered emptyRegistry "c2" mSquareReq 5
      = register_client emptyRegistry "c2" "HydraClient" 5 :=
  ⟨(dispatcher_known_sender_untouched regOneClient "c1" mSquareReq 5
      DRouter.HYDRA_CLIENT 0 "HydraClient").1 rfl rfl,
    (dispatcher_known_sender_untouched emptyRegistry "c2" mSquareReq 5
      DRouter.HYDRA_CLIENT 0 "HydraClient").2 rfl rfl (by decide)⟩

/-- Claim C3 amended: for a validated `client_registry_request` from a
client-role sender, the router emits exactly one envelope back to the sender
with `sender = HydraRouter`, `elem = client_registry_response`, `data` the
registry snapshot, and the `request_id` field carrying the incoming
`request_id` (JSON null when the request had none); the registry is left
unchanged.  (The code does not answer server-role senders: their registry
requests fall through to the broadcast rule.) -/
theorem registry_request_from_client_answered (r : ClientRegistry)
    (sender_id : String) (m : Msg) (now : Rat)
    (hrole : (jsonIsStr (dget m DRouter.SENDER) DRouter.HYDRA_CLIENT ||
      jsonIsStr (dget m DRouter.SENDER) DRouter.SIMPLE_CLIENT) = true)
    (helem : jsonIsStr (dget m DRouter.ELEM)
      DRouter.CLIENT_REGISTRY_REQUEST = true) :
    (route_message r sender_id m now).2
        = [(sender_id, client_registry_response_msg r m now)] ∧
    (route_message r sender_id m now).1 = r ∧
    dget (client_registry_response_msg r m now) DRouter.SENDER
        = some (Json.str DRouter.HYDRA_ROUTER) ∧
    dget (client_registry_response_msg r m now) DRouter.ELEM
        = some (Json.str DRouter.CLIENT_REGISTRY_RESPONSE) ∧
    dget (client_registry_response_msg r m now) DRouter.DATA
        = some (Json.obj (get_registry_data r)) ∧
    dget (client_registry_response_msg r m now) DRouter.REQUEST_ID
        = some ((dget m DRouter.REQUEST_ID).getD Json.null) := by
  have hmain : route_message r sender_id m now
      = (r, [(sender_id, client_registry_response_msg r m now)]) := by
    unfold route_message
    simp only [hrole, if_true]
    unfold _route_client_message
    simp [helem, _handle_client_registry_request]
  refine ⟨?_, ?_, rfl, rfl, rfl, rfl⟩
  · rw [hmain]
  · rw [hmain]

/-- A validated registry request from a client, with a request id. -/
def mRegistryReqFromClient : Msg :=
  [(DRouter.SENDER, Json.str DRouter.HYDRA_CLIENT),
   (DRouter.ELEM, Json.str DRouter.CLIENT_REGISTRY_REQUEST),
   (DRouter.REQUEST_ID, Json.str "q7")]

/-- Witness for the amended C3 at a concrete request. -/
theorem registry_request_from_client_answered_witness :
    (route_message regOneClient "c1" mRegistryReqFromClient 3).2
      = [("c1",
          client_registry_response_msg regOneClient mRegistryReqFromClient
            3)] :=
  (registry_request_from_client_answered regOneClient "c1"
    mRegistryReqFromClient 3 rfl rfl).1

/-- Claim C5 amended: the router's self-originated envelopes (registry
response and no-server error) always carry the `request_id` field: its value
is the triggering request's `request_id` verbatim when present, and an
explicit JSON null when the request carried none (so the field is not
omitted, contrary to the wire-schema omission rule). -/
theorem router_reply_request_id_field (r : ClientRegistry) (m : Msg)
    (now : Rat) :
    (dget m DRouter.REQUEST_ID = none →
      dget (client_registry_response_msg r m now) DRouter.REQUEST_ID
          = some Json.null ∧
      dget (no_server_error_msg m now) DRouter.REQUEST_ID
          = some Json.null) ∧
    (∀ v, dget m DRouter.REQUEST_ID = some v →
      dget (client_registry_response_msg r m now) DRouter.REQUEST_ID
          = some v ∧
      dget (no_server_error_msg m now) DRouter.REQUEST_ID = some v) := by
  constructor
  · intro h
    constructor
    · show some ((dget m DRouter.REQUEST_ID).getD Json.null) = some Json.null
      rw [h]
      rfl
    · show some ((dget m DRouter.REQUEST_ID).getD Json.null) = some Json.null
      rw [h]
      rfl
  · intro v h
    constructor
    · show some ((dget m DRouter.REQUEST_ID).getD Json.null) = some v
      rw [h]
      rfl
    · show some ((dget m DRouter.REQUEST_ID).getD Json.null) = some v
      rw [h]
      rfl

/-- Witness for the amended C5: with a request id present it is preserved;
with none the field is an explicit null. -/
theorem router_reply_request_id_field_witness :
    dget (client_registry_response_msg regOneClient mSquareReq 1)
        DRouter.REQUEST_ID = some (Json.str "r1") ∧
    dget (no_server_error_msg mRegistryReqNoRid 1) DRouter.REQUEST_ID
        = some Json.null :=
  ⟨((router_reply_request_id_field regOneClient mSquareReq 1).2
      (Json.str "r1") rfl).1,
    ((router_reply_request_id_field regOneClient mRegistryReqNoRid 1).1
      rfl).2⟩

/-- Claim C6 amended: the registry snapshot maps each registered identity to
a record whose fields are exactly `client_type` (the peer-role tag, which
the spec calls the role), `last_heartbeat` (a float), and `is_server`, true
exactly when the identity holds the active server slot; and every entry of
the snapshot comes from a registered identity. -/
theorem registry_snapshot_record_shape (r : ClientRegistry) :
    (∀ id j, (id, j) ∈ get_registry_data r →
      ∃ ty hb, (id, (ty, hb)) ∈ r.clients ∧
        j = Json.obj [
          ("client_type", Json.str ty),
          ("last_heartbeat", Json.float hb),
          ("is_server", Json.bool (decide (some id = r.server_id)))] ∧
        ((decide (some id = r.server_id)) = true ↔ r.server_id = some id)) ∧
    (∀ id ty hb, (id, (ty, hb)) ∈ r.clients →
      (id, Json.obj [
        ("client_type", Json.str ty),
        ("last_heartbeat", Json.float hb),
        ("is_server", Json.bool (decide (some id = r.server_id)))])
          ∈ get_registry_data r) := by
  constructor
  · intro id j h
    unfold get_registry_data at h
    rw [List.mem_map] at h
    obtain ⟨p, hp, he⟩ := h
    obtain ⟨pid, ty, hb⟩ := p
    cases he
    exact ⟨ty, hb, hp, rfl, by simp [eq_comm]⟩
  · intro id ty hb h
    unfold get_registry_data
    rw [List.mem_map]
    exact ⟨(id, (ty, hb)), h, rfl⟩

/-- Witness for the amended C6 at a one-client registry. -/
theorem registry_snapshot_record_shape_witness :
    ("c1", Json.obj [
      ("client_type", Json.str DRouter.HYDRA_CLIENT),
      ("last_heartbeat", Json.float 0),
      ("is_server", Json.bool (decide (some "c1" = regOneClient.server_id)))])
        ∈ get_registry_data regOneClient :=
  (registry_snapshot_record_shape regOneClient).2 "c1" DRouter.HYDRA_CLIENT 0
    (by simp [regOneClient])

/-- Claim C8 amended: once the slot for a request id is gone (completed or
timed out and removed), a later inbound envelope carrying that id is treated
as an ordinary envelope: no slot completes, the pending table is unchanged,
and the message is delivered to the registered kind-handler for its type
when one exists — it is discarded only when no handler is registered (or the
conversion fails). -/
theorem settled_request_id_reply_behaviour (pending : List String)
    (handlers : List DMsgType) (m : Msg) (now : Rat) (rid : String)
    (hr : dget m DRouter.REQUEST_ID = some (Json.str rid))
    (hp : pending.contains rid = false) :
    (_process_received_message pending handlers m now).2 = pending ∧
    (∀ r', (_process_received_message pending handlers m now).1
        ≠ ReceiveAction.completed r') ∧
    (∀ z, _convert_from_router_format m now = some z →
      (handlers.contains z.message_type = true →
        (_process_received_message pending handlers m now).1
          = ReceiveAction.handled z.message_type) ∧
      (handlers.contains z.message_type = false →
        (_process_received_message pending handlers m now).1
          = ReceiveAction.unhandled z.message_type)) ∧
    (_convert_from_router_format m now = none →
      (_process_received_message pending handlers m now).1
        = ReceiveAction.failed) := by
  have hcond : (rid.length != 0 && pending.contains rid) = false := by
    rw [hp, Bool.and_false]
  have hmain : _process_received_message pending handlers m now
      = match _convert_from_router_format m now with
        | none => (.failed, pending)
        | some z =>
            if handlers.contains z.message_type then
              (.handled z.message_type, pending)
            else
              (.unhandled z.message_type, pending) := by
    unfold _process_received_message
    rw [hr]
    simp only [hcond, Bool.false_eq_true, if_false]
  cases hc : _convert_from_router_format m now with
  | none =>
    rw [hc] at hmain
    have hm2 : _process_received_message pending handlers m now
        = (ReceiveAction.failed, pending) := hmain.trans rfl
    refine ⟨by rw [hm2], ?_, ?_, fun _ => by rw [hm2]⟩
    · intro r'
      rw [hm2]
      exact fun he => ReceiveAction.noConfusion he
    · intro z hz
      exact Option.noConfusion hz
  | some z =>
    rw [hc] at hmain
    have hm2 : _process_received_message pending handlers m now
        = if handlers.contains z.message_type then
            (ReceiveAction.handled z.message_type, pending)
          else (ReceiveAction.unhandled z.message_type, pending) :=
      hmain.trans rfl
    by_cases hh : handlers.contains z.message_type = true
    · rw [if_pos hh] at hm2
      refine ⟨by rw [hm2], ?_, ?_, ?_⟩
      · intro r'
        rw [hm2]
        exact fun he => ReceiveAction.noConfusion he
      · intro z' hz'
        cases hz'
        refine ⟨fun _ => by rw [hm2], fun hfalse => ?_⟩
        rw [hfalse] at hh
        exact Bool.noConfusion hh
      · intro hnone
        exact Option.noConfusion hnone
    · rw [if_neg hh] at hm2
      refine ⟨by rw [hm2], ?_, ?_, ?_⟩
      · intro r'
        rw [hm2]
        exact fun he => ReceiveAction.noConfusion he
      · intro z' hz'
        cases hz'
        exact ⟨fun htrue => absurd htrue hh, fun _ => by rw [hm2]⟩
      · intro hnone
        exact Option.noConfusion hnone

/-- Witness for the amended C8: the late square-response reply, with `r1` no
longer pending and no handler registered, is dropped without completing a
slot and leaves the pending table unchanged. -/
theorem settled_request_id_reply_behaviour_witness :
    (_process_received_message ["other"] [] mLateReply 2).2 = ["other"] ∧
    (_process_received_message ["other"] [] mLateReply 2).1
      = ReceiveAction.unhandled DMsgType.square_response :=
  ⟨(settled_request_id_reply_behaviour ["other"] [] mLateReply 2 "r1" rfl
      rfl).1,
    (((settled_request_id_reply_behaviour ["other"] [] mLateReply 2 "r1" rfl
      rfl).2.2.1 ⟨DMsgType.square_response, 1, none, some "r1", none⟩
        rfl).2 rfl)⟩

/-- Claim C9 amended: when `data` is present, the validator requires it be a
mapping or null: an envelope with valid `sender` and `elem` whose `data`
value is neither a mapping nor null is rejected with the diagnostic naming
the `data` field; a null `data` is accepted. -/
theorem data_field_must_be_dict_or_null (m : Msg) (v : Json) (s e : String)
    (hsender : dget m DRouter.SENDER = some (Json.str s))
    (hstrip : (pyStrip s).length ≠ 0)
    (hvalid : DRouter.is_valid_client_type s = true)
    (helem : dget m DRouter.ELEM = some (Json.str e))
    (hestrip : (pyStrip e).length ≠ 0)
    (hdata : dget m DRouter.DATA = some v)
    (hobj : ∀ kvs, v ≠ Json.obj kvs)
    (hnull : v ≠ Json.null) :
    validate_router_message m
      = (false, "Field \x27data\x27 must be dict or None, got "
          ++ typeName v) := by
  have h1 : dcontains m DRouter.SENDER = true := by
    unfold dcontains
    rw [hsender]
    rfl
  have h2 : dcontains m DRouter.ELEM = true := by
    unfold dcontains
    rw [helem]
    rfl
  have hmiss : (DRouter.REQUIRED_FIELDS.filter (fun f => ! dcontains m f))
      = [] := by
    show ([DRouter.SENDER, DRouter.ELEM].filter (fun f => ! dcontains m f))
        = []
    simp [List.filter, h1, h2]
  have hslen : ((pyStrip s).length == 0) = false := by
    simpa using hstrip
  have helen : ((pyStrip e).length == 0) = false := by
    simpa using hestrip
  have hsok : _validate_sender_field m = (true, "") := by
    unfold _validate_sender_field
    rw [hsender]
    simp only [hslen, Bool.false_eq_true, if_false, hvalid, Bool.not_true,
      Bool.false_eq_true]
  have heok : _validate_elem_field m = (true, "") := by
    unfold _validate_elem_field
    rw [helem]
    simp only [helen, Bool.false_eq_true, if_false]
  have hdat : _validate_data_field (dget m DRouter.DATA)
      = (false, "Field \x27data\x27 must be dict or None, got "
          ++ typeName v) := by
    rw [hdata]
    cases v with
    | null => exact absurd rfl hnull
    | obj kvs => exact absurd rfl (hobj kvs)
    | bool b => rfl
    | int n => rfl
    | float q => rfl
    | str t => rfl
    | arr xs => rfl
  have hopt : _validate_optional_fields m
      = (false, "Field \x27data\x27 must be dict or None, got "
          ++ typeName v) := by
    unfold _validate_optional_fields
    rw [hdat]
    rfl
  unfold validate_router_message
  rw [hmiss]
  simp [hsok, heok, hopt]

/-- A validated envelope whose `data` value is the string `oops`. -/
def mDataStr : Msg :=
  [(DRouter.SENDER, Json.str DRouter.HYDRA_CLIENT),
   (DRouter.ELEM, Json.str DRouter.SQUARE_REQUEST),
   (DRouter.DATA, Json.str "oops")]

/-- Witness for the amended C9: a string-valued `data` field is rejected
with the diagnostic naming `data`. -/
theorem data_field_must_be_dict_or_null_witness :
    validate_router_message mDataStr
      = (false, "Field \x27data\x27 must be dict or None, got str") :=
  data_field_must_be_dict_or_null mDataStr (Json.str "oops")
    DRouter.HYDRA_CLIENT DRouter.SQUARE_REQUEST rfl (by decide) rfl rfl
    (by decide) rfl (fun kvs h => Json.noConfusion h)
    (fun h => Json.noConfusion h)

/-- The predicate deciding which registry entries receive a broadcast: not
the excluded sender and not registered under a server role (the two `skip`
branches of `_broadcast_to_clients`). -/
def broadcastKeep (sender : String) (p : String × String × Rat) : Bool :=
  !(p.1 == sender) &&
    !(p.2.1 == DRouter.HYDRA_SERVER || p.2.1 == DRouter.SIMPLE_SERVER)

lemma broadcast_eq_filter_map (r : ClientRegistry) (m : Msg)
    (sender : String) :
    _broadcast_to_clients r m (some sender)
      = (r.clients.filter (broadcastKeep sender)).map (fun p => (p.1, m)) := by
  unfold _broadcast_to_clients
  obtain ⟨cl, so⟩ := r
  simp only
  induction cl with
  | nil => rfl
  | cons p t ih =>
    have hopt : (some p.1 == some sender) = (p.1 == sender) := rfl
    rw [List.filterMap_cons, List.filter_cons]
    by_cases h1 : (p.1 == sender) = true
    · have hk : broadcastKeep sender p = false := by
        unfold broadcastKeep
        rw [h1]
        rfl
      rw [hopt, if_pos h1, hk]
      simp only [Bool.false_eq_true, if_false]
      exact ih
    · have h1' : (p.1 == sender) = false := by simpa using h1
      rw [hopt, if_neg h1]
      by_cases h2 : (p.2.1 == DRouter.HYDRA_SERVER ||
          p.2.1 == DRouter.SIMPLE_SERVER) = true
      · have hk : broadcastKeep sender p = false := by
          unfold broadcastKeep
          rw [h1', h2]
          rfl
        rw [if_pos h2, hk]
        simp only [Bool.false_eq_true, if_false]
        exact ih
      · have h2' : (p.2.1 == DRouter.HYDRA_SERVER ||
            p.2.1 == DRouter.SIMPLE_SERVER) = false := by simpa using h2
        have hk : broadcastKeep sender p = true := by
          unfold broadcastKeep
          rw [h1', h2']
          rfl
        rw [if_neg h2, hk]
        simp only [if_true, List.map_cons]
        rw [ih]

lemma keys_nodup_eq_of_mem {α : Type} (l : List (String × α))
    (hnd : (l.map Prod.fst).Nodup) (c : String) (x y : α)
    (hx : (c, x) ∈ l) (hy : (c, y) ∈ l) : x = y := by
  induction l with
  | nil => cases hx
  | cons p t ih =>
    rw [List.map_cons, List.nodup_cons] at hnd
    obtain ⟨hp, ht⟩ := hnd
    rw [List.mem_cons] at hx hy
    rcases hx with hx | hx <;> rcases hy with hy | hy
    · have hxy : (c, x) = (c, y) := hx.trans hy.symm
      injection hxy with h1 h2
    · exfalso
      rw [← hx] at hp
      have hmem := List.mem_map_of_mem Prod.fst hy
      exact hp hmem
    · exfalso
      rw [← hy] at hp
      have hmem := List.mem_map_of_mem Prod.fst hx
      exact hp hmem
    · exact ih ht hx hy

lemma countP_congr_list {α : Type} (l : List α) (p q : α → Bool)
    (h : ∀ a ∈ l, p a = q a) : l.countP p = l.countP q := by
  induction l with
  | nil => rfl
  | cons x t ih =>
    rw [List.countP_cons, List.countP_cons, h x (List.mem_cons_self x t),
      ih (fun a ha => h a (List.mem_cons_of_mem x ha))]

lemma countP_key_of_nodup {α : Type} (l : List (String × α))
    (hnd : (l.map Prod.fst).Nodup) (c : String) (x : α) (hm : (c, x) ∈ l)
    (q : (String × α) → Bool) :
    l.countP (fun p => (p.1 == c) && q p) = if q (c, x) then 1 else 0 := by
  have hcount1 : l.countP (fun p => p.1 == c) = 1 := by
    have h1 : ((l.map Prod.fst).count c) = 1 :=
      List.count_eq_one_of_mem hnd (List.mem_map_of_mem Prod.fst hm)
    have h2 : ((l.map Prod.fst).count c)
        = (l.map Prod.fst).countP (fun b => b == c) := rfl
    have h3 : (l.map Prod.fst).countP (fun b => b == c)
        = l.countP (fun p => p.1 == c) :=
      List.countP_map (fun b => b == c) Prod.fst l
    rw [h2, h3] at h1
    exact h1
  cases hq : q (c, x) with
  | true =>
    simp only [if_true]
    rw [← hcount1]
    refine countP_congr_list l _ _ ?_
    intro a ha
    by_cases hk : (a.1 == c) = true
    · have hac : a.1 = c := beq_iff_eq.mp hk
      have : a.2 = x := by
        refine keys_nodup_eq_of_mem l hnd c a.2 x ?_ hm
        rw [← hac]
        exact ha
      have haeq : a = (c, x) := by
        cases a
        simp_all
      rw [haeq, hq]
      exact Bool.and_true _
    · have hk' : (a.1 == c) = false := by simpa using hk
      rw [hk']
      rfl
  | false =>
    simp only [Bool.false_eq_true, if_false]
    rw [List.countP_eq_zero]
    intro a ha hcontra
    have h1 : (a.1 == c) = true := by
      cases h1 : (a.1 == c) with
      | true => rfl
      | false =>
        rw [h1] at hcontra
        simp at hcontra
    have hac : a.1 = c := beq_iff_eq.mp h1
    have h2 : a.2 = x := by
      refine keys_nodup_eq_of_mem l hnd c a.2 x ?_ hm
      rw [← hac]
      exact ha
    have haeq : a = (c, x) := by
      cases a
      simp_all
    rw [haeq, hq] at hcontra
    simp at hcontra

/-- Claim C4 amended: for a validated non-heartbeat envelope from a
server-role sender, the broadcast covers exactly the registered identities
that are not the sender and not registered under a server role: each such
identity receives exactly one copy of the unchanged envelope, server-role
identities receive nothing, the registry is unchanged, and nothing is
emitted when no such identity exists.  (Identities registered under the
reserved HydraRouter role count as broadcast targets, so the set can be
non-empty even with no client-role identity registered.) -/
theorem server_broadcast_exact (r : ClientRegistry) (sender : String)
    (m : Msg) (now : Rat)
    (hwf : (r.clients.map Prod.fst).Nodup)
    (helem : jsonIsStr (dget m DRouter.ELEM) DRouter.HEARTBEAT = false) :
    ((_route_server_message r sender m now).1 = r) ∧
    (∀ p ∈ (_route_server_message r sender m now).2, p.2 = m) ∧
    (∀ c ty hb, (c, (ty, hb)) ∈ r.clients →
      ty ≠ DRouter.HYDRA_SERVER → ty ≠ DRouter.SIMPLE_SERVER → c ≠ sender →
      ((_route_server_message r sender m now).2.countP
        (fun q => q.1 == c)) = 1) ∧
    (∀ c ty hb, (c, (ty, hb)) ∈ r.clients →
      (ty = DRouter.HYDRA_SERVER ∨ ty = DRouter.SIMPLE_SERVER) →
      ((_route_server_message r sender m now).2.countP
        (fun q => q.1 == c)) = 0) ∧
    (r.clients.filter (broadcastKeep sender) = [] →
      (_route_server_message r sender m now).2 = []) := by
  have hmain : _route_server_message r sender m now
      = (r, _broadcast_to_clients r m (some sender)) := by
    unfold _route_server_message
    simp [helem]
  have hout : (_route_server_message r sender m now).2
      = (r.clients.filter (broadcastKeep sender)).map (fun p => (p.1, m)) := by
    rw [hmain, broadcast_eq_filter_map]
  refine ⟨by rw [hmain], ?_, ?_, ?_, ?_⟩
  · intro p hp
    rw [hout] at hp
    rw [List.mem_map] at hp
    obtain ⟨a, _, ha⟩ := hp
    rw [← ha]
  · intro c ty hb hmem h1 h2 h3
    rw [hout]
    have hstep : ((r.clients.filter (broadcastKeep sender)).map
          (fun p => (p.1, m))).countP (fun q => q.1 == c)
        = (r.clients.filter (broadcastKeep sender)).countP
            (fun p => p.1 == c) := by
      rw [List.countP_map]
      rfl
    rw [hstep, List.countP_filter,
      countP_key_of_nodup r.clients hwf c (ty, hb) hmem
        (broadcastKeep sender)]
    have hkeep : broadcastKeep sender (c, (ty, hb)) = true := by
      show (!(c == sender) &&
        !((ty == DRouter.HYDRA_SERVER) ||
          (ty == DRouter.SIMPLE_SERVER))) = true
      rw [beq_eq_false_iff_ne.mpr h3, beq_eq_false_iff_ne.mpr h1,
        beq_eq_false_iff_ne.mpr h2]
      rfl
    rw [if_pos hkeep]
  · intro c ty hb hmem hty
    rw [hout]
    have hstep : ((r.clients.filter (broadcastKeep sender)).map
          (fun p => (p.1, m))).countP (fun q => q.1 == c)
        = (r.clients.filter (broadcastKeep sender)).countP
            (fun p => p.1 == c) := by
      rw [List.countP_map]
      rfl
    rw [hstep, List.countP_filter,
      countP_key_of_nodup r.clients hwf c (ty, hb) hmem
        (broadcastKeep sender)]
    have hkeep : broadcastKeep sender (c, (ty, hb)) = false := by
      show (!(c == sender) &&
        !((ty == DRouter.HYDRA_SERVER) ||
          (ty == DRouter.SIMPLE_SERVER))) = false
      rcases hty with hty | hty
      · rw [beq_iff_eq.mpr hty]
        simp
      · rw [show (ty == DRouter.SIMPLE_SERVER) = true from beq_iff_eq.mpr hty]
        simp
    rw [hkeep]
    rfl
  · intro hem
    rw [hout, hem]
    rfl

/-- Witness for the amended C4: broadcasting a status update from the
SimpleServer `s1` reaches the client `c1` exactly once and the server-typed
entry `s1` not at all. -/
theorem server_broadcast_exact_witness :
    ((_route_server_message regClientAndServer "s1" mStatusUpdate 1).2.countP
      (fun q => q.1 == "c1")) = 1 ∧
    ((_route_server_message regClientAndServer "s1" mStatusUpdate 1).2.countP
      (fun q => q.1 == "s1")) = 0 :=
  ⟨(server_broadcast_exact regClientAndServer "s1" mStatusUpdate 1
      (by decide) rfl).2.2.1 "c1" DRouter.HYDRA_CLIENT 0 (by decide)
      (by decide) (by decide) (by decide),
    (server_broadcast_exact regClientAndServer "s1" mStatusUpdate 1
      (by decide) rfl).2.2.2.1 "s1" DRouter.SIMPLE_SERVER 0 (by decide)
      (Or.inr rfl)⟩
